import Mathlib

/-! Verification development for the deepclaude request handlers
(src/api/src/handlers.rs).  The module below is a shallow embedding of the
two-stage DeepSeek → Anthropic pipeline: the batched handler (chat), the
streaming handler (chat_stream, modelled as the event sequence its spawned
task pushes into the channel together with the trace of backend calls it
performs), the usage watermark aggregation and the cost accounting.
Backend clients are parameters: a batched backend is a function from the
messages it is called with to its response, a streaming backend is a
function from the messages to the finite list of stream elements
(Ok chunk / Err message) its stream yields.  Token counters (Rust u32) are
modelled as Nat; the f64 dollar amounts are modelled as rationals, with
the Rust fixed-point rendering modelled as rounding to three decimals
(ties to even, matching IEEE-style formatting of exact values). -/

/-- Message role (models.rs: Role). -/
inductive Role
  | system
  | user
  | assistant
  deriving DecidableEq, Repr

/-- A chat message (models.rs: Message). -/
structure Message where
  role : Role
  content : String
  deriving DecidableEq, Repr

/-- One block of response content (models.rs: ContentBlock);
content_type is "text" or "text_delta". -/
structure ContentBlock where
  content_type : String
  text : String
  deriving DecidableEq, Repr

/-- Raw usage counters of a DeepSeek response (models.rs). -/
structure DsUsage where
  prompt_tokens : Nat
  completion_tokens : Nat
  total_tokens : Nat
  deriving DecidableEq, Repr

/-- Message part of a batched DeepSeek choice. -/
structure DsMessage where
  content : Option String
  deriving DecidableEq, Repr

/-- A choice of a batched DeepSeek response. -/
structure DsChoice where
  message : DsMessage
  deriving DecidableEq, Repr

/-- Batched DeepSeek response: choices plus usage counters. -/
structure DsResponse where
  choices : List DsChoice
  usage : DsUsage
  deriving DecidableEq, Repr

/-- Raw usage counters of a batched Anthropic response (models.rs);
input_tokens and output_tokens are optional in the wire format. -/
structure AntUsage where
  prompt_tokens : Nat
  completion_tokens : Nat
  input_tokens : Option Nat
  output_tokens : Option Nat
  total_tokens : Nat
  deriving DecidableEq, Repr

/-- Message part of a batched Anthropic choice. -/
structure AntMessage where
  content : Option String
  deriving DecidableEq, Repr

/-- A choice of a batched Anthropic response. -/
structure AntChoice where
  message : AntMessage
  deriving DecidableEq, Repr

/-- Batched Anthropic response: choices plus usage counters. -/
structure AntResponse where
  choices : List AntChoice
  usage : AntUsage
  deriving DecidableEq, Repr

/-- Delta part of a DeepSeek stream chunk choice. -/
structure DsDelta where
  content : Option String
  deriving DecidableEq, Repr

/-- A choice of a DeepSeek stream chunk. -/
structure DsStreamChoice where
  delta : DsDelta
  deriving DecidableEq, Repr

/-- One chunk of the DeepSeek response stream: optional delta content in
its choices and an optional cumulative usage snapshot. -/
structure DsStreamChunk where
  choices : List DsStreamChoice
  usage : Option DsUsage
  deriving DecidableEq, Repr

/-- Cumulative usage snapshot carried by an Anthropic stream chunk. -/
structure AntStreamUsage where
  prompt_tokens : Nat
  completion_tokens : Nat
  total_tokens : Nat
  deriving DecidableEq, Repr

/-- Delta part of an Anthropic stream chunk choice. -/
structure AntDelta where
  content : Option String
  deriving DecidableEq, Repr

/-- A choice of an Anthropic stream chunk. -/
structure AntStreamChoice where
  delta : AntDelta
  deriving DecidableEq, Repr

/-- One chunk of the Anthropic response stream. -/
structure AntStreamChunk where
  choices : List AntStreamChoice
  usage : Option AntStreamUsage
  deriving DecidableEq, Repr

/-- Reported DeepSeek usage in the combined usage payload (models.rs:
DeepSeekUsage). -/
structure DeepSeekUsage where
  input_tokens : Nat
  output_tokens : Nat
  total_tokens : Nat
  total_cost : String
  deriving DecidableEq, Repr

/-- Reported Anthropic usage in the combined usage payload (models.rs:
AnthropicUsage). -/
structure AnthropicUsage where
  input_tokens : Nat
  output_tokens : Nat
  total_tokens : Nat
  total_cost : String
  deriving DecidableEq, Repr

/-- Combined usage of both backends (models.rs: CombinedUsage). -/
structure CombinedUsage where
  total_cost : String
  deepseek_usage : DeepSeekUsage
  anthropic_usage : AnthropicUsage
  deriving DecidableEq, Repr

/-- Final batched response payload (models.rs: ApiResponse); the raw
backend responses are present only when the request was verbose. -/
structure ApiResponse where
  created : Nat
  content : List ContentBlock
  deepseek_response : Option DsResponse
  anthropic_response : Option AntResponse
  combined_usage : CombinedUsage
  deriving DecidableEq, Repr

/-- Error taxonomy of the handlers (error.rs: ApiError); param and code
are unused by the handlers and kept as optional strings. -/
inductive ApiError
  | MissingHeader (header : String)
  | BadRequest (message : String)
  | InvalidSystemPrompt
  | DeepSeekError (message : String) (type_ : String)
      (param : Option String) (code : Option String)
  | AnthropicError (message : String) (type_ : String)
      (param : Option String) (code : Option String)
  deriving DecidableEq, Repr

/-- Events of the outbound streaming protocol (models.rs: StreamEvent).
The created timestamp is an abstract Nat. -/
inductive StreamEvent
  | start (created : Nat)
  | content (content : List ContentBlock)
  | usage (usage : CombinedUsage)
  | error (message : String) (code : Nat)
  | done
  deriving DecidableEq, Repr

/-- Trace entry recording one backend invocation: which backend was
called and with which messages (for Anthropic also the forwarded system
prompt). -/
inductive BackendCall
  | deepseek (messages : List Message)
  | anthropic (messages : List Message) (system_prompt : Option String)
  deriving DecidableEq, Repr

/-- DeepSeek price table entries used by the handlers (config.rs). -/
structure DeepSeekPricing where
  input_cache_hit_price : ℚ
  input_cache_miss_price : ℚ
  output_price : ℚ
  deriving DecidableEq, Repr

/-- Anthropic claude_3_sonnet price table entries used by the handlers
(config.rs). -/
structure AnthropicModelPricing where
  input_price : ℚ
  output_price : ℚ
  cache_write_price : ℚ
  cache_read_price : ℚ
  deriving DecidableEq, Repr

/-- The configuration slice the handlers read: the two price tables. -/
structure Config where
  deepseek : DeepSeekPricing
  claude_3_sonnet : AnthropicModelPricing
  deriving DecidableEq, Repr

/-- Cost of DeepSeek usage (handlers.rs lines 71-84): cache-hit cost for
the (currently always zero) cached tokens, cache-miss cost for the rest,
plus output cost, all per million tokens. -/
def calculate_deepseek_cost (input_tokens output_tokens : Nat)
    (config : Config) : ℚ :=
  let cached_tokens : Nat := 0
  let cache_hit_cost :=
    ((cached_tokens : ℚ) / 1000000) * config.deepseek.input_cache_hit_price
  let cache_miss_cost := (((input_tokens - cached_tokens : Nat) : ℚ) / 1000000)
    * config.deepseek.input_cache_miss_price
  let output_cost := ((output_tokens : ℚ) / 1000000) * config.deepseek.output_price
  cache_hit_cost + cache_miss_cost + output_cost

/-- Cost of Anthropic usage (handlers.rs lines 100-116): input and output
cost plus the (currently always zero) cache write/read costs. -/
def calculate_anthropic_cost (input_tokens output_tokens : Nat)
    (config : Config) : ℚ :=
  let pricing := config.claude_3_sonnet
  let cache_write_tokens : Nat := 0
  let cache_read_tokens : Nat := 0
  let input_cost := ((input_tokens : ℚ) / 1000000) * pricing.input_price
  let output_cost := ((output_tokens : ℚ) / 1000000) * pricing.output_price
  let cache_write_cost := ((cache_write_tokens : ℚ) / 1000000) * pricing.cache_write_price
  let cache_read_cost := ((cache_read_tokens : ℚ) / 1000000) * pricing.cache_read_price
  input_cost + output_cost + cache_write_cost + cache_read_cost

/-- Rounding of a rational to the nearest integer with ties to even,
the rounding applied by the Rust fixed-point float formatting. -/
def roundTiesEven (q : ℚ) : ℤ :=
  let n := q.floor
  let f := q - (n : ℚ)
  if f < 1/2 then n
  else if 1/2 < f then n + 1
  else if n % 2 = 0 then n else n + 1

/-- Left-pads the fractional part to three digits. -/
def pad3 (n : Nat) : String :=
  if n < 10 then "00" ++ toString n
  else if n < 100 then "0" ++ toString n
  else toString n

/-- Dollar rendering of a cost with exactly three fractional digits
(handlers.rs lines 127-129, the {:.3} format with a dollar sign). -/
def format_cost (cost : ℚ) : String :=
  let m := roundTiesEven (cost * 1000)
  if m < 0 then
    "$-" ++ toString ((-m).toNat / 1000) ++ "." ++ pad3 ((-m).toNat % 1000)
  else
    "$" ++ toString (m.toNat / 1000) ++ "." ++ pad3 (m.toNat % 1000)

/-- First choice content of a batched DeepSeek response
(handlers.rs lines 204-207: choices.first().and_then on message.content). -/
def firstContentDs (r : DsResponse) : Option String :=
  r.choices.head?.bind (fun c => c.message.content)

/-- First choice content of a batched Anthropic response
(handlers.rs lines 251-254). -/
def firstContentAnt (r : AntResponse) : Option String :=
  r.choices.head?.bind (fun c => c.message.content)

/-- The fixed thinking delimiter wrapper applied to backend A output
(handlers.rs lines 215 and 454). -/
def wrapThinking (s : String) : String :=
  "<thinking>\n" ++ s ++ "\n</thinking>"

/-- Batched handler (handlers.rs lines 173-314), starting after system
prompt validation and token extraction, with the two backend clients as
parameters.  Returns the handler result together with the trace of
backend calls made. -/
def chat (config : Config) (created : Nat) (verbose : Bool)
    (system_prompt : Option String) (messages : List Message)
    (deepseek_chat : List Message → DsResponse)
    (anthropic_chat : List Message → Option String → AntResponse) :
    Except ApiError ApiResponse × List BackendCall :=
  let deepseek_response := deepseek_chat messages
  match firstContentDs deepseek_response with
  | none =>
      (Except.error (ApiError.DeepSeekError "No reasoning content in response"
        "missing_content" none none),
       [BackendCall.deepseek messages])
  | some reasoning_content =>
    let thinking_content := wrapThinking reasoning_content
    let anthropic_messages :=
      messages ++ [Message.mk Role.assistant thinking_content]
    let anthropic_response := anthropic_chat anthropic_messages system_prompt
    let deepseek_cost := calculate_deepseek_cost
      deepseek_response.usage.prompt_tokens
      deepseek_response.usage.completion_tokens config
    let anthropic_cost := calculate_anthropic_cost
      anthropic_response.usage.prompt_tokens
      anthropic_response.usage.completion_tokens config
    match firstContentAnt anthropic_response with
    | none =>
        (Except.error (ApiError.AnthropicError "No content in Anthropic response"
          "missing_content" none none),
         [BackendCall.deepseek messages,
          BackendCall.anthropic anthropic_messages system_prompt])
    | some anthropic_content =>
        (Except.ok
          { created := created
            content := [ContentBlock.mk "text" thinking_content,
                        ContentBlock.mk "text" anthropic_content]
            deepseek_response := if verbose then some deepseek_response else none
            anthropic_response := if verbose then some anthropic_response else none
            combined_usage :=
              { total_cost := format_cost (deepseek_cost + anthropic_cost)
                deepseek_usage :=
                  { input_tokens := deepseek_response.usage.prompt_tokens
                    output_tokens := deepseek_response.usage.completion_tokens
                    total_tokens := deepseek_response.usage.total_tokens
                    total_cost := format_cost deepseek_cost }
                anthropic_usage :=
                  { input_tokens := anthropic_response.usage.input_tokens.getD 0
                    output_tokens := anthropic_response.usage.output_tokens.getD 0
                    total_tokens := anthropic_response.usage.total_tokens
                    total_cost := format_cost anthropic_cost } } },
         [BackendCall.deepseek messages,
          BackendCall.anthropic anthropic_messages system_prompt])

/-- Per-chunk processing of the DeepSeek stream loop body (handlers.rs
lines 395-414): the content events it emits and the text it appends to
the accumulated reasoning.  A chunk without a choice, without delta
content, or with empty delta content emits nothing and appends nothing. -/
def dsStep (response : DsStreamChunk) : List StreamEvent × String :=
  match response.choices.head? with
  | some choice =>
    match choice.delta.content with
    | some c =>
        if c.isEmpty then ([], "")
        else ([StreamEvent.content [ContentBlock.mk "text_delta" c]], c)
    | none => ([], "")
  | none => ([], "")

/-- Usage tracking of the DeepSeek stream loop (handlers.rs lines
417-420): a chunk carrying a usage snapshot overwrites the stored one. -/
def dsUsageUpd (response : DsStreamChunk) (deepseek_usage : Option DsUsage) :
    Option DsUsage :=
  match response.usage with
  | some usage => some usage
  | none => deepseek_usage

/-- Result of the DeepSeek stream loop: either aborted by a stream error
(after emitting the terminal error event) or finished with the
accumulated reasoning and the last usage snapshot. -/
inductive DsLoopResult
  | aborted (events : List StreamEvent)
  | finished (events : List StreamEvent) (complete_reasoning : String)
      (deepseek_usage : Option DsUsage)
  deriving DecidableEq, Repr

/-- The DeepSeek stream consumption loop (handlers.rs lines 391-435),
accumulating emitted events, reasoning text and the usage snapshot; an
Err element emits a terminal error event and aborts the whole task. -/
def dsLoop : List (Except String DsStreamChunk) → List StreamEvent →
    String → Option DsUsage → DsLoopResult
  | [], events, complete_reasoning, deepseek_usage =>
      DsLoopResult.finished events complete_reasoning deepseek_usage
  | Except.error e :: _, events, _, _ =>
      DsLoopResult.aborted (events ++
        [StreamEvent.error ("DeepSeek stream error: " ++ e) 500])
  | Except.ok response :: rest, events, complete_reasoning, deepseek_usage =>
      dsLoop rest (events ++ (dsStep response).1)
        (complete_reasoning ++ (dsStep response).2)
        (dsUsageUpd response deepseek_usage)

/-- Per-chunk processing of the Anthropic stream loop body (handlers.rs
lines 472-491), mirroring dsStep. -/
def antStep (response : AntStreamChunk) : List StreamEvent × String :=
  match response.choices.head? with
  | some choice =>
    match choice.delta.content with
    | some c =>
        if c.isEmpty then ([], "")
        else ([StreamEvent.content [ContentBlock.mk "text_delta" c]], c)
    | none => ([], "")
  | none => ([], "")

/-- Usage tracking of the Anthropic stream loop (handlers.rs lines
493-498): the watermark pair of input and output tokens is updated to
the field-wise maximum with each snapshot. -/
def antToksUpd (response : AntStreamChunk) (toks : Nat × Nat) : Nat × Nat :=
  match response.usage with
  | some usage =>
      (Nat.max usage.prompt_tokens toks.1, Nat.max usage.completion_tokens toks.2)
  | none => toks

/-- Result of the Anthropic stream loop: aborted by a stream error or
finished with accumulated content and the token watermark pair. -/
inductive AntLoopResult
  | aborted (events : List StreamEvent)
  | finished (events : List StreamEvent) (total_content : String)
      (toks : Nat × Nat)
  deriving DecidableEq, Repr

/-- The Anthropic stream consumption loop (handlers.rs lines 468-513). -/
def antLoop : List (Except String AntStreamChunk) → List StreamEvent →
    String → Nat × Nat → AntLoopResult
  | [], events, total_content, toks =>
      AntLoopResult.finished events total_content toks
  | Except.error e :: _, events, _, _ =>
      AntLoopResult.aborted (events ++
        [StreamEvent.error ("Anthropic stream error: " ++ e) 500])
  | Except.ok response :: rest, events, total_content, toks =>
      antLoop rest (events ++ (antStep response).1)
        (total_content ++ (antStep response).2)
        (antToksUpd response toks)

/-- Streaming handler (handlers.rs lines 330-564), starting after system
prompt validation and token extraction.  The value is the ordered
sequence of events the spawned task sends into the channel, paired with
the trace of backend calls; an early return of the task on a stream
error cuts the sequence after the terminal error event. -/
def chat_stream (config : Config) (created : Nat)
    (system_prompt : Option String) (messages : List Message)
    (deepseek_chat_stream : List Message → List (Except String DsStreamChunk))
    (anthropic_chat_stream :
      List Message → Option String → List (Except String AntStreamChunk)) :
    List StreamEvent × List BackendCall :=
  let events := [StreamEvent.start created,
                 StreamEvent.content [ContentBlock.mk "text" "<thinking>\n"]]
  match dsLoop (deepseek_chat_stream messages) events "" none with
  | DsLoopResult.aborted events => (events, [BackendCall.deepseek messages])
  | DsLoopResult.finished events complete_reasoning deepseek_usage =>
    let events := events ++
      [StreamEvent.content [ContentBlock.mk "text" "\n</thinking>"]]
    let anthropic_messages := messages ++
      [Message.mk Role.assistant (wrapThinking complete_reasoning)]
    match antLoop (anthropic_chat_stream anthropic_messages system_prompt)
        events "" (0, 0) with
    | AntLoopResult.aborted events =>
        (events,
         [BackendCall.deepseek messages,
          BackendCall.anthropic anthropic_messages system_prompt])
    | AntLoopResult.finished events _total_content toks =>
      let events :=
        match deepseek_usage with
        | some deepseek_final_usage =>
          let deepseek_cost := calculate_deepseek_cost
            deepseek_final_usage.prompt_tokens
            deepseek_final_usage.completion_tokens config
          let anthropic_cost := calculate_anthropic_cost toks.1 toks.2 config
          events ++ [StreamEvent.usage
            { total_cost := format_cost (deepseek_cost + anthropic_cost)
              deepseek_usage :=
                { input_tokens := deepseek_final_usage.prompt_tokens
                  output_tokens := deepseek_final_usage.completion_tokens
                  total_tokens := deepseek_final_usage.total_tokens
                  total_cost := format_cost deepseek_cost }
              anthropic_usage :=
                { input_tokens := toks.1
                  output_tokens := toks.2
                  total_tokens := toks.1 + toks.2
                  total_cost := format_cost anthropic_cost } }]
        | none => events
      (events ++ [StreamEvent.done],
       [BackendCall.deepseek messages,
        BackendCall.anthropic anthropic_messages system_prompt])

/-- Concatenation of a list of strings in order. -/
def concatTexts : List String → String
  | [] => ""
  | s :: rest => s ++ concatTexts rest

/-- Events emitted while consuming a list of Ok DeepSeek chunks. -/
def dsEventsOf : List DsStreamChunk → List StreamEvent
  | [] => []
  | c :: rest => (dsStep c).1 ++ dsEventsOf rest

/-- Reasoning text accumulated while consuming a list of Ok DeepSeek
chunks. -/
def dsTextOf : List DsStreamChunk → String
  | [] => ""
  | c :: rest => (dsStep c).2 ++ dsTextOf rest

/-- Final stored usage snapshot after consuming a list of DeepSeek
chunks: the last snapshot carried by any chunk, if any. -/
def dsLastUsage : List DsStreamChunk → Option DsUsage → Option DsUsage
  | [], u => u
  | c :: rest, u => dsLastUsage rest (dsUsageUpd c u)

/-- Events emitted while consuming a list of Ok Anthropic chunks. -/
def antEventsOf : List AntStreamChunk → List StreamEvent
  | [] => []
  | c :: rest => (antStep c).1 ++ antEventsOf rest

/-- Content text accumulated while consuming a list of Ok Anthropic
chunks. -/
def antTextOf : List AntStreamChunk → String
  | [] => ""
  | c :: rest => (antStep c).2 ++ antTextOf rest

/-- Final token watermark pair after consuming a list of Anthropic
chunks: the running field-wise maximum over all usage snapshots. -/
def antMaxToks : List AntStreamChunk → Nat × Nat → Nat × Nat
  | [], toks => toks
  | c :: rest, toks => antMaxToks rest (antToksUpd c toks)

/-- The usage event suffix the streaming task emits before done: one
usage event when a DeepSeek usage snapshot was stored, nothing
otherwise (handlers.rs lines 516-552). -/
def usageTail (config : Config) (deepseek_usage : Option DsUsage)
    (toks : Nat × Nat) : List StreamEvent :=
  match deepseek_usage with
  | some deepseek_final_usage =>
    let deepseek_cost := calculate_deepseek_cost
      deepseek_final_usage.prompt_tokens
      deepseek_final_usage.completion_tokens config
    let anthropic_cost := calculate_anthropic_cost toks.1 toks.2 config
    [StreamEvent.usage
      { total_cost := format_cost (deepseek_cost + anthropic_cost)
        deepseek_usage :=
          { input_tokens := deepseek_final_usage.prompt_tokens
            output_tokens := deepseek_final_usage.completion_tokens
            total_tokens := deepseek_final_usage.total_tokens
            total_cost := format_cost deepseek_cost }
        anthropic_usage :=
          { input_tokens := toks.1
            output_tokens := toks.2
            total_tokens := toks.1 + toks.2
            total_cost := format_cost anthropic_cost } }]
  | none => []

/-- Boolean recognizer for start events. -/
def isStart : StreamEvent → Bool
  | StreamEvent.start _ => true
  | _ => false

/-- Boolean recognizer for terminal events (done or error). -/
def isTerminal : StreamEvent → Bool
  | StreamEvent.done => true
  | StreamEvent.error _ _ => true
  | _ => false

/-- Boolean recognizer for error events. -/
def isError : StreamEvent → Bool
  | StreamEvent.error _ _ => true
  | _ => false

/-- Boolean recognizer for usage events. -/
def isUsageEvent : StreamEvent → Bool
  | StreamEvent.usage _ => true
  | _ => false

/-- The combined usage payloads carried by the usage events of an event
sequence, in order. -/
def usageEvents (events : List StreamEvent) : List CombinedUsage :=
  events.filterMap (fun e => match e with
    | StreamEvent.usage u => some u
    | _ => none)

/-- Every finite list of stream elements is either all Ok, or an all-Ok
prefix followed by a first Err element. -/
theorem except_decomp {ε α : Type} : ∀ l : List (Except ε α),
    (∃ xs : List α, l = xs.map Except.ok) ∨
    (∃ (xs : List α) (e : ε) (rest : List (Except ε α)),
      l = xs.map Except.ok ++ Except.error e :: rest)
  | [] => Or.inl ⟨[], rfl⟩
  | Except.ok a :: t =>
      match except_decomp t with
      | Or.inl ⟨xs, h⟩ => Or.inl ⟨a :: xs, by rw [h]; rfl⟩
      | Or.inr ⟨xs, e, rest, h⟩ => Or.inr ⟨a :: xs, e, rest, by rw [h]; rfl⟩
  | Except.error e :: t => Or.inr ⟨[], e, t, rfl⟩

/-- Consuming an all-Ok DeepSeek stream finishes with the concatenated
events, the concatenated reasoning and the last usage snapshot. -/
theorem dsLoop_ok : ∀ (chunks : List DsStreamChunk) (events : List StreamEvent)
    (reasoning : String) (usage : Option DsUsage),
    dsLoop (chunks.map Except.ok) events reasoning usage =
      DsLoopResult.finished (events ++ dsEventsOf chunks)
        (reasoning ++ dsTextOf chunks) (dsLastUsage chunks usage)
  | [], events, reasoning, usage => by
      simp [dsLoop, dsEventsOf, dsTextOf, dsLastUsage, String.append_empty]
  | c :: rest, events, reasoning, usage => by
      simp only [List.map_cons, dsLoop, dsEventsOf, dsTextOf, dsLastUsage]
      rw [dsLoop_ok rest, List.append_assoc, String.append_assoc]

/-- Consuming a DeepSeek stream whose first Err element follows an
all-Ok prefix aborts after the prefix events and the error event. -/
theorem dsLoop_err : ∀ (chunks : List DsStreamChunk) (e : String)
    (rest : List (Except String DsStreamChunk))
    (events : List StreamEvent) (reasoning : String) (usage : Option DsUsage),
    dsLoop (chunks.map Except.ok ++ Except.error e :: rest) events reasoning usage =
      DsLoopResult.aborted (events ++ dsEventsOf chunks ++
        [StreamEvent.error ("DeepSeek stream error: " ++ e) 500])
  | [], e, rest, events, reasoning, usage => by
      simp [dsLoop, dsEventsOf]
  | c :: cs, e, rest, events, reasoning, usage => by
      simp only [List.map_cons, List.cons_append, dsLoop, dsEventsOf,
        List.append_eq]
      rw [dsLoop_err cs e rest]
      simp [List.append_assoc]

/-- Consuming an all-Ok Anthropic stream finishes with the concatenated
events, the concatenated content and the watermark token pair. -/
theorem antLoop_ok : ∀ (chunks : List AntStreamChunk) (events : List StreamEvent)
    (total_content : String) (toks : Nat × Nat),
    antLoop (chunks.map Except.ok) events total_content toks =
      AntLoopResult.finished (events ++ antEventsOf chunks)
        (total_content ++ antTextOf chunks) (antMaxToks chunks toks)
  | [], events, total_content, toks => by
      simp [antLoop, antEventsOf, antTextOf, antMaxToks, String.append_empty]
  | c :: rest, events, total_content, toks => by
      simp only [List.map_cons, antLoop, antEventsOf, antTextOf, antMaxToks]
      rw [antLoop_ok rest, List.append_assoc, String.append_assoc]

/-- Consuming an Anthropic stream whose first Err element follows an
all-Ok prefix aborts after the prefix events and the error event. -/
theorem antLoop_err : ∀ (chunks : List AntStreamChunk) (e : String)
    (rest : List (Except String AntStreamChunk))
    (events : List StreamEvent) (total_content : String) (toks : Nat × Nat),
    antLoop (chunks.map Except.ok ++ Except.error e :: rest) events total_content toks =
      AntLoopResult.aborted (events ++ antEventsOf chunks ++
        [StreamEvent.error ("Anthropic stream error: " ++ e) 500])
  | [], e, rest, events, total_content, toks => by
      simp [antLoop, antEventsOf]
  | c :: cs, e, rest, events, total_content, toks => by
      simp only [List.map_cons, List.cons_append, antLoop, antEventsOf,
        List.append_eq]
      rw [antLoop_err cs e rest]
      simp [List.append_assoc]

/-- Full characterization of the streaming task when both backend
streams are exhausted without an Err element: events are start, the
opening thinking tag, the DeepSeek delta events, the closing thinking
tag, the Anthropic delta events, the usage tail and done; both backends
are called, Anthropic with the conversation extended by the wrapped
complete reasoning. -/
theorem chat_stream_ok_ok (config : Config) (created : Nat)
    (sp : Option String) (messages : List Message)
    (dsStr : List Message → List (Except String DsStreamChunk))
    (antStr : List Message → Option String → List (Except String AntStreamChunk))
    (dsChunks : List DsStreamChunk) (antChunks : List AntStreamChunk)
    (hds : dsStr messages = dsChunks.map Except.ok)
    (hant : antStr (messages ++
      [Message.mk Role.assistant (wrapThinking (dsTextOf dsChunks))]) sp =
      antChunks.map Except.ok) :
    chat_stream config created sp messages dsStr antStr =
      ([StreamEvent.start created,
        StreamEvent.content [ContentBlock.mk "text" "<thinking>\n"]]
        ++ dsEventsOf dsChunks
        ++ [StreamEvent.content [ContentBlock.mk "text" "\n</thinking>"]]
        ++ antEventsOf antChunks
        ++ usageTail config (dsLastUsage dsChunks none) (antMaxToks antChunks (0, 0))
        ++ [StreamEvent.done],
       [BackendCall.deepseek messages,
        BackendCall.anthropic (messages ++
          [Message.mk Role.assistant (wrapThinking (dsTextOf dsChunks))]) sp]) := by
  unfold chat_stream
  rw [hds]
  simp only [dsLoop_ok, String.empty_append]
  rw [hant]
  simp only [antLoop_ok, String.empty_append]
  cases dsLastUsage dsChunks none with
  | none => simp [usageTail, List.append_assoc]
  | some u => simp [usageTail, List.append_assoc]

/-- Characterization of the streaming task when the DeepSeek stream
yields an Err element: the task stops after the terminal error event and
Anthropic is never called. -/
theorem chat_stream_ds_err (config : Config) (created : Nat)
    (sp : Option String) (messages : List Message)
    (dsStr : List Message → List (Except String DsStreamChunk))
    (antStr : List Message → Option String → List (Except String AntStreamChunk))
    (dsChunks : List DsStreamChunk) (e : String)
    (rest : List (Except String DsStreamChunk))
    (hds : dsStr messages = dsChunks.map Except.ok ++ Except.error e :: rest) :
    chat_stream config created sp messages dsStr antStr =
      ([StreamEvent.start created,
        StreamEvent.content [ContentBlock.mk "text" "<thinking>\n"]]
        ++ dsEventsOf dsChunks
        ++ [StreamEvent.error ("DeepSeek stream error: " ++ e) 500],
       [BackendCall.deepseek messages]) := by
  unfold chat_stream
  rw [hds]
  simp only [dsLoop_err]

/-- Characterization of the streaming task when the DeepSeek stream is
exhausted cleanly but the Anthropic stream yields an Err element. -/
theorem chat_stream_ant_err (config : Config) (created : Nat)
    (sp : Option String) (messages : List Message)
    (dsStr : List Message → List (Except String DsStreamChunk))
    (antStr : List Message → Option String → List (Except String AntStreamChunk))
    (dsChunks : List DsStreamChunk) (antChunks : List AntStreamChunk)
    (e : String) (rest : List (Except String AntStreamChunk))
    (hds : dsStr messages = dsChunks.map Except.ok)
    (hant : antStr (messages ++
      [Message.mk Role.assistant (wrapThinking (dsTextOf dsChunks))]) sp =
      antChunks.map Except.ok ++ Except.error e :: rest) :
    chat_stream config created sp messages dsStr antStr =
      ([StreamEvent.start created,
        StreamEvent.content [ContentBlock.mk "text" "<thinking>\n"]]
        ++ dsEventsOf dsChunks
        ++ [StreamEvent.content [ContentBlock.mk "text" "\n</thinking>"]]
        ++ antEventsOf antChunks
        ++ [StreamEvent.error ("Anthropic stream error: " ++ e) 500],
       [BackendCall.deepseek messages,
        BackendCall.anthropic (messages ++
          [Message.mk Role.assistant (wrapThinking (dsTextOf dsChunks))]) sp]) := by
  unfold chat_stream
  rw [hds]
  simp only [dsLoop_ok, String.empty_append]
  rw [hant]
  simp only [antLoop_err]

/-- Whenever the DeepSeek stream is exhausted without an Err element,
the streaming task calls both backends, Anthropic with the conversation
extended by the wrapped complete reasoning, regardless of what the
Anthropic stream yields. -/
theorem chat_stream_calls_ok (config : Config) (created : Nat)
    (sp : Option String) (messages : List Message)
    (dsStr : List Message → List (Except String DsStreamChunk))
    (antStr : List Message → Option String → List (Except String AntStreamChunk))
    (dsChunks : List DsStreamChunk)
    (hds : dsStr messages = dsChunks.map Except.ok) :
    (chat_stream config created sp messages dsStr antStr).2 =
      [BackendCall.deepseek messages,
       BackendCall.anthropic (messages ++
         [Message.mk Role.assistant (wrapThinking (dsTextOf dsChunks))]) sp] := by
  unfold chat_stream
  rw [hds]
  simp only [dsLoop_ok, String.empty_append]
  cases antLoop (antStr (messages ++
      [Message.mk Role.assistant (wrapThinking (dsTextOf dsChunks))]) sp)
      ([StreamEvent.start created,
        StreamEvent.content [ContentBlock.mk "text" "<thinking>\n"]]
        ++ dsEventsOf dsChunks
        ++ [StreamEvent.content [ContentBlock.mk "text" "\n</thinking>"]])
      "" (0, 0) with
  | aborted ev => rfl
  | finished ev tc toks => cases dsLastUsage dsChunks none <;> rfl

/-- Shape of the per-chunk DeepSeek events: none, or a single content
event carrying one nonempty text_delta block. -/
theorem dsStep_fst (c : DsStreamChunk) :
    (dsStep c).1 = [] ∨ ∃ s : String, s ≠ "" ∧
      (dsStep c).1 = [StreamEvent.content [ContentBlock.mk "text_delta" s]] := by
  obtain ⟨choices, usage⟩ := c
  cases choices with
  | nil => exact Or.inl rfl
  | cons choice rest =>
    obtain ⟨⟨content⟩⟩ := choice
    cases content with
    | none => exact Or.inl rfl
    | some s =>
      by_cases h : s.isEmpty
      · left
        simp [dsStep, h]
      · right
        refine ⟨s, ?_, by simp [dsStep, h]⟩
        intro hs
        rw [hs] at h
        exact h (by decide)

/-- Shape of the per-chunk Anthropic events, mirroring dsStep_fst. -/
theorem antStep_fst (c : AntStreamChunk) :
    (antStep c).1 = [] ∨ ∃ s : String, s ≠ "" ∧
      (antStep c).1 = [StreamEvent.content [ContentBlock.mk "text_delta" s]] := by
  obtain ⟨choices, usage⟩ := c
  cases choices with
  | nil => exact Or.inl rfl
  | cons choice rest =>
    obtain ⟨⟨content⟩⟩ := choice
    cases content with
    | none => exact Or.inl rfl
    | some s =>
      by_cases h : s.isEmpty
      · left
        simp [antStep, h]
      · right
        refine ⟨s, ?_, by simp [antStep, h]⟩
        intro hs
        rw [hs] at h
        exact h (by decide)

/-- Every event emitted inside the DeepSeek stream loop is a content
event with a single nonempty text_delta block. -/
theorem mem_dsEventsOf : ∀ (chunks : List DsStreamChunk) (e : StreamEvent),
    e ∈ dsEventsOf chunks → ∃ s : String, s ≠ "" ∧
      e = StreamEvent.content [ContentBlock.mk "text_delta" s]
  | [], e, h => absurd h (by simp [dsEventsOf])
  | c :: rest, e, h => by
      rw [dsEventsOf, List.mem_append] at h
      rcases h with h | h
      · rcases dsStep_fst c with h1 | ⟨s, hs, h1⟩
        · rw [h1] at h
          exact absurd h (by simp)
        · rw [h1] at h
          rw [List.mem_singleton] at h
          exact ⟨s, hs, h⟩
      · exact mem_dsEventsOf rest e h

/-- Every event emitted inside the Anthropic stream loop is a content
event with a single nonempty text_delta block. -/
theorem mem_antEventsOf : ∀ (chunks : List AntStreamChunk) (e : StreamEvent),
    e ∈ antEventsOf chunks → ∃ s : String, s ≠ "" ∧
      e = StreamEvent.content [ContentBlock.mk "text_delta" s]
  | [], e, h => absurd h (by simp [antEventsOf])
  | c :: rest, e, h => by
      rw [antEventsOf, List.mem_append] at h
      rcases h with h | h
      · rcases antStep_fst c with h1 | ⟨s, hs, h1⟩
        · rw [h1] at h
          exact absurd h (by simp)
        · rw [h1] at h
          rw [List.mem_singleton] at h
          exact ⟨s, hs, h⟩
      · exact mem_antEventsOf rest e h

/-- Every event of the usage tail is a usage event. -/
theorem mem_usageTail (config : Config) (du : Option DsUsage) (toks : Nat × Nat)
    (e : StreamEvent) (h : e ∈ usageTail config du toks) :
    ∃ u, e = StreamEvent.usage u := by
  cases du with
  | none => exact absurd h (by simp [usageTail])
  | some v =>
      simp only [usageTail, List.mem_singleton] at h
      exact ⟨_, h⟩

/-- Classification flags of the DeepSeek loop events. -/
theorem dsEventsOf_flags (chunks : List DsStreamChunk) :
    ∀ e ∈ dsEventsOf chunks, isStart e = false ∧ isTerminal e = false ∧
      isError e = false ∧ isUsageEvent e = false := by
  intro e he
  rcases mem_dsEventsOf chunks e he with ⟨s, hs, rfl⟩
  exact ⟨rfl, rfl, rfl, rfl⟩

/-- Classification flags of the Anthropic loop events. -/
theorem antEventsOf_flags (chunks : List AntStreamChunk) :
    ∀ e ∈ antEventsOf chunks, isStart e = false ∧ isTerminal e = false ∧
      isError e = false ∧ isUsageEvent e = false := by
  intro e he
  rcases mem_antEventsOf chunks e he with ⟨s, hs, rfl⟩
  exact ⟨rfl, rfl, rfl, rfl⟩

/-- Classification flags of the usage tail events. -/
theorem usageTail_flags (config : Config) (du : Option DsUsage) (toks : Nat × Nat) :
    ∀ e ∈ usageTail config du toks, isStart e = false ∧ isTerminal e = false ∧
      isError e = false := by
  intro e he
  rcases mem_usageTail config du toks e he with ⟨u, rfl⟩
  exact ⟨rfl, rfl, rfl⟩

/-- The text carried by one event: the concatenated texts of its content
blocks for a content event, empty for every other event kind. -/
def eventText : StreamEvent → String
  | StreamEvent.content blocks => concatTexts (blocks.map ContentBlock.text)
  | _ => ""

/-- Emission-order concatenation of the text of every content block of
every content event of a sequence. -/
def eventsText (events : List StreamEvent) : String :=
  concatTexts (events.map eventText)

/-- Concatenation of the content block texts of a batched response. -/
def responseText (r : ApiResponse) : String :=
  concatTexts (r.content.map ContentBlock.text)

/-- Concatenation of string lists distributes over list append. -/
theorem concatTexts_append (l1 l2 : List String) :
    concatTexts (l1 ++ l2) = concatTexts l1 ++ concatTexts l2 := by
  induction l1 with
  | nil => rw [List.nil_append, concatTexts, String.empty_append]
  | cons s t ih =>
      rw [List.cons_append, concatTexts, concatTexts, ih, String.append_assoc]

/-- Event text extraction distributes over event list append. -/
theorem eventsText_append (l1 l2 : List StreamEvent) :
    eventsText (l1 ++ l2) = eventsText l1 ++ eventsText l2 := by
  simp only [eventsText, List.map_append, concatTexts_append]

/-- The text of the events a DeepSeek chunk emits equals the text it
appends to the accumulated reasoning. -/
theorem dsStep_text (c : DsStreamChunk) :
    eventsText (dsStep c).1 = (dsStep c).2 := by
  obtain ⟨choices, usage⟩ := c
  cases choices with
  | nil => rfl
  | cons choice rest =>
    obtain ⟨⟨content⟩⟩ := choice
    cases content with
    | none => rfl
    | some s =>
      by_cases h : s.isEmpty
      · simp [dsStep, h, eventsText, concatTexts]
      · simp [dsStep, h, eventsText, eventText, concatTexts, String.append_empty]

/-- The text of the events an Anthropic chunk emits equals the text it
appends to the accumulated content. -/
theorem antStep_text (c : AntStreamChunk) :
    eventsText (antStep c).1 = (antStep c).2 := by
  obtain ⟨choices, usage⟩ := c
  cases choices with
  | nil => rfl
  | cons choice rest =>
    obtain ⟨⟨content⟩⟩ := choice
    cases content with
    | none => rfl
    | some s =>
      by_cases h : s.isEmpty
      · simp [antStep, h, eventsText, concatTexts]
      · simp [antStep, h, eventsText, eventText, concatTexts, String.append_empty]

/-- The concatenated text of all DeepSeek loop events is the accumulated
reasoning text. -/
theorem eventsText_dsEventsOf : ∀ chunks : List DsStreamChunk,
    eventsText (dsEventsOf chunks) = dsTextOf chunks
  | [] => rfl
  | c :: rest => by
      rw [dsEventsOf, dsTextOf, eventsText_append, dsStep_text,
        eventsText_dsEventsOf rest]

/-- The concatenated text of all Anthropic loop events is the
accumulated content text. -/
theorem eventsText_antEventsOf : ∀ chunks : List AntStreamChunk,
    eventsText (antEventsOf chunks) = antTextOf chunks
  | [] => rfl
  | c :: rest => by
      rw [antEventsOf, antTextOf, eventsText_append, antStep_text,
        eventsText_antEventsOf rest]

/-- The usage tail carries no content text. -/
theorem eventsText_usageTail (config : Config) (du : Option DsUsage)
    (toks : Nat × Nat) : eventsText (usageTail config du toks) = "" := by
  cases du <;> rfl

/-- Usage payload extraction distributes over event list append. -/
theorem usageEvents_append (l1 l2 : List StreamEvent) :
    usageEvents (l1 ++ l2) = usageEvents l1 ++ usageEvents l2 := by
  simp [usageEvents, List.filterMap_append]

/-- A sequence without usage events carries no usage payloads. -/
theorem usageEvents_eq_nil (l : List StreamEvent)
    (h : ∀ e ∈ l, isUsageEvent e = false) : usageEvents l = [] := by
  rw [usageEvents, List.filterMap_eq_nil_iff]
  intro e he
  cases e with
  | usage u => exact absurd (h _ he) (by simp [isUsageEvent])
  | start n => rfl
  | content b => rfl
  | error m c => rfl
  | done => rfl

/-- All-zero price table used for concrete examples. -/
def cfg0 : Config := ⟨⟨0, 0, 0⟩, ⟨0, 0, 0, 0⟩⟩

/-- Price table of the cost formatting example: DeepSeek cache-miss rate
of one dollar per million tokens and output rate of two dollars per
million tokens. -/
def cfgEx : Config := ⟨⟨0, 1, 2⟩, ⟨0, 0, 0, 0⟩⟩

/-- Usage extraction skips a start event. -/
theorem usageEvents_cons_start (n : Nat) (l : List StreamEvent) :
    usageEvents (StreamEvent.start n :: l) = usageEvents l := rfl

/-- Usage extraction skips a content event. -/
theorem usageEvents_cons_content (bs : List ContentBlock) (l : List StreamEvent) :
    usageEvents (StreamEvent.content bs :: l) = usageEvents l := rfl

/-- Usage extraction skips an error event. -/
theorem usageEvents_cons_error (m : String) (c : Nat) (l : List StreamEvent) :
    usageEvents (StreamEvent.error m c :: l) = usageEvents l := rfl

/-- Usage extraction skips a done event. -/
theorem usageEvents_cons_done (l : List StreamEvent) :
    usageEvents (StreamEvent.done :: l) = usageEvents l := rfl

/-- Usage extraction of the empty sequence. -/
theorem usageEvents_nil : usageEvents [] = [] := rfl

/-- The DeepSeek loop events carry no usage payloads. -/
theorem usageEvents_dsEventsOf (chunks : List DsStreamChunk) :
    usageEvents (dsEventsOf chunks) = [] :=
  usageEvents_eq_nil _ (fun e he => (dsEventsOf_flags chunks e he).2.2.2)

/-- The Anthropic loop events carry no usage payloads. -/
theorem usageEvents_antEventsOf (chunks : List AntStreamChunk) :
    usageEvents (antEventsOf chunks) = [] :=
  usageEvents_eq_nil _ (fun e he => (antEventsOf_flags chunks e he).2.2.2)

/-- Every usage payload of the usage tail reports the Anthropic token
watermarks with a total equal to their sum, and the stored DeepSeek
snapshot fields. -/
theorem mem_usageTail_payload (config : Config) (du : Option DsUsage)
    (toks : Nat × Nat) (cu : CombinedUsage)
    (h : cu ∈ usageEvents (usageTail config du toks)) :
    cu.anthropic_usage.input_tokens = toks.1 ∧
    cu.anthropic_usage.output_tokens = toks.2 ∧
    cu.anthropic_usage.total_tokens = toks.1 + toks.2 ∧
    ∃ u, du = some u ∧
      cu.deepseek_usage.input_tokens = u.prompt_tokens ∧
      cu.deepseek_usage.output_tokens = u.completion_tokens := by
  cases du with
  | none => exact absurd h (by simp [usageTail, usageEvents])
  | some u =>
      simp only [usageTail, usageEvents, List.filterMap, List.mem_singleton] at h
      subst h
      exact ⟨rfl, rfl, rfl, u, rfl, rfl, rfl⟩

/-- Evaluation rule for roundTiesEven when the fractional part is known
to be below one half. -/
theorem roundTiesEven_eq_of_floor (q : ℚ) (n : ℤ) (hfl : q.floor = n)
    (hlt : q - (n : ℚ) < 1/2) : roundTiesEven q = n := by
  unfold roundTiesEven
  rw [hfl, if_pos hlt]

/-- The usage tail of a stored DeepSeek snapshot carries exactly one
usage payload, built from the snapshot and the Anthropic watermarks. -/
theorem usageEvents_usageTail_some (config : Config) (u : DsUsage)
    (toks : Nat × Nat) :
    usageEvents (usageTail config (some u) toks) =
      [⟨format_cost (calculate_deepseek_cost u.prompt_tokens
            u.completion_tokens config
          + calculate_anthropic_cost toks.1 toks.2 config),
        ⟨u.prompt_tokens, u.completion_tokens, u.total_tokens,
          format_cost (calculate_deepseek_cost u.prompt_tokens
            u.completion_tokens config)⟩,
        ⟨toks.1, toks.2, toks.1 + toks.2,
          format_cost (calculate_anthropic_cost toks.1 toks.2 config)⟩⟩] := rfl

/-- Claim C7: in batched mode the combined total_cost is the rendering,
as a dollar-prefixed fixed-point string with three fractional digits, of
the sum of both backends costs; the DeepSeek cost is input tokens over a
million times the cache-miss rate plus output tokens over a million
times the output rate; and one million input tokens at a one dollar per
million cache-miss rate with half a million output tokens at a two
dollars per million output rate renders as the string for two dollars. -/
theorem c7_total_cost_format (config : Config) (created : Nat) (verbose : Bool)
    (sp : Option String) (messages : List Message)
    (dsChat : List Message → DsResponse)
    (antChat : List Message → Option String → AntResponse)
    (r a : String)
    (hr : firstContentDs (dsChat messages) = some r)
    (ha : ∀ ms s, firstContentAnt (antChat ms s) = some a) :
    (∃ resp calls,
      chat config created verbose sp messages dsChat antChat =
        (Except.ok resp, calls) ∧
      resp.combined_usage.total_cost =
        format_cost (calculate_deepseek_cost
            (dsChat messages).usage.prompt_tokens
            (dsChat messages).usage.completion_tokens config
          + calculate_anthropic_cost
            (antChat (messages ++ [Message.mk Role.assistant (wrapThinking r)])
              sp).usage.prompt_tokens
            (antChat (messages ++ [Message.mk Role.assistant (wrapThinking r)])
              sp).usage.completion_tokens config)) ∧
    (∀ (i o : Nat) (cfg : Config),
      calculate_deepseek_cost i o cfg =
        ((i : ℚ) / 1000000) * cfg.deepseek.input_cache_miss_price
        + ((o : ℚ) / 1000000) * cfg.deepseek.output_price) ∧
    calculate_deepseek_cost 1000000 500000 cfgEx = 2 ∧
    format_cost (calculate_deepseek_cost 1000000 500000 cfgEx) = "$2.000" := by
  refine ⟨?_, ?_, ?_, ?_⟩
  · simp only [chat, hr, ha]
    exact ⟨_, _, rfl, rfl⟩
  · intro i o cfg
    simp only [calculate_deepseek_cost, Nat.sub_zero, Nat.cast_zero, zero_div,
      zero_mul, zero_add]
  · norm_num [calculate_deepseek_cost, cfgEx]
  · have h2 : calculate_deepseek_cost 1000000 500000 cfgEx = 2 := by
      norm_num [calculate_deepseek_cost, cfgEx]
    rw [h2]
    have h3 : (2 : ℚ) * 1000 = 2000 := by norm_num
    simp only [format_cost]
    rw [h3, roundTiesEven_eq_of_floor 2000 2000 (by decide) (by norm_num)]
    decide

/-- Concrete batched DeepSeek backend used in witnesses. -/
def dsChatEx : List Message → DsResponse :=
  fun _ => ⟨[⟨⟨some "draft"⟩⟩], ⟨1000000, 500000, 1500000⟩⟩

/-- Concrete batched Anthropic backend used in witnesses. -/
def antChatEx : List Message → Option String → AntResponse :=
  fun _ _ => ⟨[⟨⟨some "final answer"⟩⟩], ⟨3, 4, some 3, some 4, 7⟩⟩

/-- Witness instantiating C7 at concrete backends and the example
price table. -/
theorem c7_total_cost_format_witness :
    format_cost (calculate_deepseek_cost 1000000 500000 cfgEx) = "$2.000" :=
  (c7_total_cost_format cfgEx 0 false none [] dsChatEx antChatEx "draft"
    "final answer" rfl (fun _ _ => rfl)).2.2.2

/-- Claim C10: every usage event of a streaming session reports an
Anthropic total_tokens equal to the sum of the reported input and output
token watermarks, for arbitrary backend streams. -/
theorem c10_anthropic_total_tokens (config : Config) (created : Nat)
    (sp : Option String) (messages : List Message)
    (dsStr : List Message → List (Except String DsStreamChunk))
    (antStr : List Message → Option String → List (Except String AntStreamChunk)) :
    ∀ cu ∈ usageEvents (chat_stream config created sp messages dsStr antStr).1,
      cu.anthropic_usage.total_tokens =
        cu.anthropic_usage.input_tokens + cu.anthropic_usage.output_tokens := by
  intro cu hcu
  rcases except_decomp (dsStr messages) with ⟨dsChunks, hds⟩ | ⟨dsChunks, e, rest, hds⟩
  · rcases except_decomp (antStr (messages ++
        [Message.mk Role.assistant (wrapThinking (dsTextOf dsChunks))]) sp) with
      ⟨antChunks, hant⟩ | ⟨antChunks, e, rest, hant⟩
    · rw [chat_stream_ok_ok config created sp messages dsStr antStr dsChunks
        antChunks hds hant] at hcu
      simp only [List.cons_append, List.nil_append, usageEvents_cons_start,
        usageEvents_cons_content, usageEvents_append, usageEvents_dsEventsOf,
        usageEvents_antEventsOf, usageEvents_cons_done, usageEvents_nil,
        List.append_nil] at hcu
      rcases mem_usageTail_payload config (dsLastUsage dsChunks none)
        (antMaxToks antChunks (0, 0)) cu hcu with ⟨h1, h2, h3, _⟩
      rw [h1, h2, h3]
    · rw [chat_stream_ant_err config created sp messages dsStr antStr dsChunks
        antChunks e rest hds hant] at hcu
      simp only [List.cons_append, List.nil_append, usageEvents_cons_start,
        usageEvents_cons_content, usageEvents_append, usageEvents_dsEventsOf,
        usageEvents_antEventsOf, usageEvents_cons_error, usageEvents_nil,
        List.append_nil] at hcu
      exact absurd hcu (by simp)
  · rw [chat_stream_ds_err config created sp messages dsStr antStr dsChunks
      e rest hds] at hcu
    simp only [List.cons_append, List.nil_append, usageEvents_cons_start,
      usageEvents_cons_content, usageEvents_append, usageEvents_dsEventsOf,
      usageEvents_cons_error, usageEvents_nil, List.append_nil] at hcu
    exact absurd hcu (by simp)

/-- Concrete DeepSeek stream backend used in witnesses: one chunk with
only a usage snapshot. -/
def dsStrEx : List Message → List (Except String DsStreamChunk) :=
  fun _ => [Except.ok ⟨[], some ⟨1, 1, 2⟩⟩]

/-- Concrete Anthropic stream backend used in witnesses: one chunk with
only a usage snapshot. -/
def antStrEx : List Message → Option String → List (Except String AntStreamChunk) :=
  fun _ _ => [Except.ok ⟨[], some ⟨5, 7, 12⟩⟩]

/-- Witness instantiating C10 at a concrete session carrying one usage
event. -/
theorem c10_anthropic_total_tokens_witness :
    ∃ cu ∈ usageEvents (chat_stream cfg0 0 none [] dsStrEx antStrEx).1,
      cu.anthropic_usage.total_tokens =
        cu.anthropic_usage.input_tokens + cu.anthropic_usage.output_tokens := by
  have hm : usageEvents (chat_stream cfg0 0 none [] dsStrEx antStrEx).1 =
      usageEvents (usageTail cfg0 (some ⟨1, 1, 2⟩) (5, 7)) := by
    rw [chat_stream_ok_ok cfg0 0 none [] dsStrEx antStrEx
      [⟨[], some ⟨1, 1, 2⟩⟩] [⟨[], some ⟨5, 7, 12⟩⟩] rfl rfl]
    simp only [List.cons_append, List.nil_append, usageEvents_cons_start,
      usageEvents_cons_content, usageEvents_append, usageEvents_dsEventsOf,
      usageEvents_antEventsOf, usageEvents_cons_done, usageEvents_nil,
      List.append_nil]
    rfl
  refine ⟨⟨format_cost (calculate_deepseek_cost 1 1 cfg0
      + calculate_anthropic_cost 5 7 cfg0),
      ⟨1, 1, 2, format_cost (calculate_deepseek_cost 1 1 cfg0)⟩,
      ⟨5, 7, 12, format_cost (calculate_anthropic_cost 5 7 cfg0)⟩⟩, ?_, ?_⟩
  · rw [hm, usageEvents_usageTail_some]
    exact List.mem_singleton.mpr rfl
  · refine c10_anthropic_total_tokens cfg0 0 none [] dsStrEx antStrEx _ ?_
    rw [hm, usageEvents_usageTail_some]
    exact List.mem_singleton.mpr rfl

/-- A filter by a predicate that is false on every element is empty. -/
theorem filter_eq_nil_of_false {p : StreamEvent → Bool} (l : List StreamEvent)
    (h : ∀ e ∈ l, p e = false) : l.filter p = [] :=
  List.filter_eq_nil_iff.mpr (fun e he => by simp [h e he])

/-- Every streaming session event sequence has one of three shapes:
clean completion, DeepSeek stream error abort, or Anthropic stream error
abort. -/
theorem chat_stream_events_shape (config : Config) (created : Nat)
    (sp : Option String) (messages : List Message)
    (dsStr : List Message → List (Except String DsStreamChunk))
    (antStr : List Message → Option String → List (Except String AntStreamChunk)) :
    (∃ dsChunks antChunks,
      (chat_stream config created sp messages dsStr antStr).1 =
        [StreamEvent.start created,
         StreamEvent.content [ContentBlock.mk "text" "<thinking>\n"]]
        ++ dsEventsOf dsChunks
        ++ [StreamEvent.content [ContentBlock.mk "text" "\n</thinking>"]]
        ++ antEventsOf antChunks
        ++ usageTail config (dsLastUsage dsChunks none) (antMaxToks antChunks (0, 0))
        ++ [StreamEvent.done]) ∨
    (∃ dsChunks emsg,
      (chat_stream config created sp messages dsStr antStr).1 =
        [StreamEvent.start created,
         StreamEvent.content [ContentBlock.mk "text" "<thinking>\n"]]
        ++ dsEventsOf dsChunks
        ++ [StreamEvent.error emsg 500]) ∨
    (∃ dsChunks antChunks emsg,
      (chat_stream config created sp messages dsStr antStr).1 =
        [StreamEvent.start created,
         StreamEvent.content [ContentBlock.mk "text" "<thinking>\n"]]
        ++ dsEventsOf dsChunks
        ++ [StreamEvent.content [ContentBlock.mk "text" "\n</thinking>"]]
        ++ antEventsOf antChunks
        ++ [StreamEvent.error emsg 500]) := by
  rcases except_decomp (dsStr messages) with ⟨dsChunks, hds⟩ | ⟨dsChunks, e, rest, hds⟩
  · rcases except_decomp (antStr (messages ++
        [Message.mk Role.assistant (wrapThinking (dsTextOf dsChunks))]) sp) with
      ⟨antChunks, hant⟩ | ⟨antChunks, e, rest, hant⟩
    · refine Or.inl ⟨dsChunks, antChunks, ?_⟩
      rw [chat_stream_ok_ok config created sp messages dsStr antStr dsChunks
        antChunks hds hant]
    · refine Or.inr (Or.inr ⟨dsChunks, antChunks,
        "Anthropic stream error: " ++ e, ?_⟩)
      rw [chat_stream_ant_err config created sp messages dsStr antStr dsChunks
        antChunks e rest hds hant]
  · refine Or.inr (Or.inl ⟨dsChunks, "DeepSeek stream error: " ++ e, ?_⟩)
    rw [chat_stream_ds_err config created sp messages dsStr antStr dsChunks
      e rest hds]

/-- The DeepSeek loop events contain no start event. -/
theorem filter_isStart_dsEventsOf (chunks : List DsStreamChunk) :
    (dsEventsOf chunks).filter isStart = [] :=
  filter_eq_nil_of_false _ (fun e he => (dsEventsOf_flags chunks e he).1)

/-- The DeepSeek loop events contain no terminal event. -/
theorem filter_isTerminal_dsEventsOf (chunks : List DsStreamChunk) :
    (dsEventsOf chunks).filter isTerminal = [] :=
  filter_eq_nil_of_false _ (fun e he => (dsEventsOf_flags chunks e he).2.1)

/-- The DeepSeek loop events contain no error event. -/
theorem filter_isError_dsEventsOf (chunks : List DsStreamChunk) :
    (dsEventsOf chunks).filter isError = [] :=
  filter_eq_nil_of_false _ (fun e he => (dsEventsOf_flags chunks e he).2.2.1)

/-- The Anthropic loop events contain no start event. -/
theorem filter_isStart_antEventsOf (chunks : List AntStreamChunk) :
    (antEventsOf chunks).filter isStart = [] :=
  filter_eq_nil_of_false _ (fun e he => (antEventsOf_flags chunks e he).1)

/-- The Anthropic loop events contain no terminal event. -/
theorem filter_isTerminal_antEventsOf (chunks : List AntStreamChunk) :
    (antEventsOf chunks).filter isTerminal = [] :=
  filter_eq_nil_of_false _ (fun e he => (antEventsOf_flags chunks e he).2.1)

/-- The Anthropic loop events contain no error event. -/
theorem filter_isError_antEventsOf (chunks : List AntStreamChunk) :
    (antEventsOf chunks).filter isError = [] :=
  filter_eq_nil_of_false _ (fun e he => (antEventsOf_flags chunks e he).2.2.1)

/-- The usage tail contains no start event. -/
theorem filter_isStart_usageTail (config : Config) (du : Option DsUsage)
    (toks : Nat × Nat) : (usageTail config du toks).filter isStart = [] :=
  filter_eq_nil_of_false _ (fun e he => (usageTail_flags config du toks e he).1)

/-- The usage tail contains no terminal event. -/
theorem filter_isTerminal_usageTail (config : Config) (du : Option DsUsage)
    (toks : Nat × Nat) : (usageTail config du toks).filter isTerminal = [] :=
  filter_eq_nil_of_false _ (fun e he => (usageTail_flags config du toks e he).2.1)

/-- The usage tail contains no error event. -/
theorem filter_isError_usageTail (config : Config) (du : Option DsUsage)
    (toks : Nat × Nat) : (usageTail config du toks).filter isError = [] :=
  filter_eq_nil_of_false _ (fun e he => (usageTail_flags config du toks e he).2.2)

/-- The last element of a sequence ending in a singleton. -/
theorem getLast?_append_last {α : Type} (l : List α) (a : α) :
    (l ++ [a]).getLast? = some a := by simp

/-- Claim C5: every streaming session event sequence contains exactly
one start event, which is the first event, and exactly one terminal
event (done or error), which is the last event, for arbitrary backend
streams. -/
theorem c5_start_terminal_unique (config : Config) (created : Nat)
    (sp : Option String) (messages : List Message)
    (dsStr : List Message → List (Except String DsStreamChunk))
    (antStr : List Message → Option String → List (Except String AntStreamChunk)) :
    (chat_stream config created sp messages dsStr antStr).1.head? =
        some (StreamEvent.start created) ∧
    ((chat_stream config created sp messages dsStr antStr).1.filter
        isStart).length = 1 ∧
    ((chat_stream config created sp messages dsStr antStr).1.filter
        isTerminal).length = 1 ∧
    (∃ e, (chat_stream config created sp messages dsStr antStr).1.getLast? =
        some e ∧ isTerminal e = true) := by
  rcases chat_stream_events_shape config created sp messages dsStr antStr with
    ⟨dsChunks, antChunks, hsh⟩ | ⟨dsChunks, emsg, hsh⟩ |
    ⟨dsChunks, antChunks, emsg, hsh⟩
  · rw [hsh]
    refine ⟨rfl, ?_, ?_, StreamEvent.done, ?_, rfl⟩
    · simp [List.filter_append, filter_isStart_dsEventsOf,
        filter_isStart_antEventsOf, filter_isStart_usageTail, isStart]
    · simp [List.filter_append, filter_isTerminal_dsEventsOf,
        filter_isTerminal_antEventsOf, filter_isTerminal_usageTail, isTerminal]
    · exact getLast?_append_last _ _
  · rw [hsh]
    refine ⟨rfl, ?_, ?_, StreamEvent.error emsg 500, ?_, rfl⟩
    · simp [List.filter_append, filter_isStart_dsEventsOf, isStart]
    · simp [List.filter_append, filter_isTerminal_dsEventsOf, isTerminal]
    · exact getLast?_append_last _ _
  · rw [hsh]
    refine ⟨rfl, ?_, ?_, StreamEvent.error emsg 500, ?_, rfl⟩
    · simp [List.filter_append, filter_isStart_dsEventsOf,
        filter_isStart_antEventsOf, isStart]
    · simp [List.filter_append, filter_isTerminal_dsEventsOf,
        filter_isTerminal_antEventsOf, isTerminal]
    · exact getLast?_append_last _ _

/-- Every content event of the sequence carries only nonempty block
texts. -/
def ContentBlocksNonempty (l : List StreamEvent) : Prop :=
  ∀ e ∈ l, ∀ bs, e = StreamEvent.content bs → ∀ b ∈ bs, b.text ≠ ""

/-- The nonempty-blocks property is preserved by append. -/
theorem cbn_append {l1 l2 : List StreamEvent}
    (h1 : ContentBlocksNonempty l1) (h2 : ContentBlocksNonempty l2) :
    ContentBlocksNonempty (l1 ++ l2) := by
  intro e he
  rcases List.mem_append.mp he with h | h
  · exact h1 e h
  · exact h2 e h

/-- The nonempty-blocks property is preserved by cons. -/
theorem cbn_cons {a : StreamEvent} {l : List StreamEvent}
    (ha : ∀ bs, a = StreamEvent.content bs → ∀ b ∈ bs, b.text ≠ "")
    (h : ContentBlocksNonempty l) : ContentBlocksNonempty (a :: l) := by
  intro e he
  rcases List.mem_cons.mp he with rfl | he2
  · exact ha
  · exact h e he2

/-- The empty sequence has the nonempty-blocks property. -/
theorem cbn_nil : ContentBlocksNonempty [] := by
  intro e he
  exact absurd he (List.not_mem_nil e)

/-- A single-block text event with nonempty text satisfies the per-event
nonempty-blocks condition. -/
theorem cbn_singleton_tag (t s : String) (hs : s ≠ "") :
    ∀ bs, StreamEvent.content [ContentBlock.mk t s] = StreamEvent.content bs →
      ∀ b ∈ bs, b.text ≠ "" := by
  intro bs hbs b hb
  injection hbs with h
  subst h
  rw [List.mem_singleton] at hb
  subst hb
  exact hs

/-- A non-content event vacuously satisfies the per-event
nonempty-blocks condition. -/
theorem cbn_not_content {a : StreamEvent}
    (h : ∀ bs, a ≠ StreamEvent.content bs) :
    ∀ bs, a = StreamEvent.content bs → ∀ b ∈ bs, b.text ≠ "" := by
  intro bs hbs
  exact absurd hbs (h bs)

/-- The DeepSeek loop events have the nonempty-blocks property. -/
theorem cbn_dsEventsOf (chunks : List DsStreamChunk) :
    ContentBlocksNonempty (dsEventsOf chunks) := by
  intro e he
  rcases mem_dsEventsOf chunks e he with ⟨s, hs, rfl⟩
  exact cbn_singleton_tag "text_delta" s hs

/-- The Anthropic loop events have the nonempty-blocks property. -/
theorem cbn_antEventsOf (chunks : List AntStreamChunk) :
    ContentBlocksNonempty (antEventsOf chunks) := by
  intro e he
  rcases mem_antEventsOf chunks e he with ⟨s, hs, rfl⟩
  exact cbn_singleton_tag "text_delta" s hs

/-- The usage tail has the nonempty-blocks property. -/
theorem cbn_usageTail (config : Config) (du : Option DsUsage)
    (toks : Nat × Nat) : ContentBlocksNonempty (usageTail config du toks) := by
  intro e he
  rcases mem_usageTail config du toks e he with ⟨u, rfl⟩
  intro bs hbs
  simp at hbs

/-- Claim C9: every content event emitted by the streaming handler
carries only blocks with nonempty text, and a backend delta chunk whose
content is the empty string emits no event and appends no text to the
accumulated reasoning or answer. -/
theorem c9_nonempty_content_blocks (config : Config) (created : Nat)
    (sp : Option String) (messages : List Message)
    (dsStr : List Message → List (Except String DsStreamChunk))
    (antStr : List Message → Option String → List (Except String AntStreamChunk)) :
    (∀ e ∈ (chat_stream config created sp messages dsStr antStr).1,
      ∀ bs, e = StreamEvent.content bs → ∀ b ∈ bs, b.text ≠ "") ∧
    (∀ c : DsStreamChunk,
      c.choices.head?.bind (fun ch => ch.delta.content) = some "" →
        dsStep c = ([], "")) ∧
    (∀ c : AntStreamChunk,
      c.choices.head?.bind (fun ch => ch.delta.content) = some "" →
        antStep c = ([], "")) := by
  refine ⟨?_, ?_, ?_⟩
  · rcases chat_stream_events_shape config created sp messages dsStr antStr with
      ⟨dsChunks, antChunks, hsh⟩ | ⟨dsChunks, emsg, hsh⟩ |
      ⟨dsChunks, antChunks, emsg, hsh⟩ <;> rw [hsh]
    · exact cbn_append (cbn_append (cbn_append (cbn_append (cbn_append
        (cbn_cons (cbn_not_content (fun bs hc => by simp at hc))
          (cbn_cons (cbn_singleton_tag "text" "<thinking>\n" (by decide)) cbn_nil))
        (cbn_dsEventsOf dsChunks))
        (cbn_cons (cbn_singleton_tag "text" "\n</thinking>" (by decide)) cbn_nil))
        (cbn_antEventsOf antChunks))
        (cbn_usageTail config (dsLastUsage dsChunks none)
          (antMaxToks antChunks (0, 0))))
        (cbn_cons (cbn_not_content (fun bs hc => by simp at hc)) cbn_nil)
    · exact cbn_append (cbn_append
        (cbn_cons (cbn_not_content (fun bs hc => by simp at hc))
          (cbn_cons (cbn_singleton_tag "text" "<thinking>\n" (by decide)) cbn_nil))
        (cbn_dsEventsOf dsChunks))
        (cbn_cons (cbn_not_content (fun bs hc => by simp at hc)) cbn_nil)
    · exact cbn_append (cbn_append (cbn_append (cbn_append
        (cbn_cons (cbn_not_content (fun bs hc => by simp at hc))
          (cbn_cons (cbn_singleton_tag "text" "<thinking>\n" (by decide)) cbn_nil))
        (cbn_dsEventsOf dsChunks))
        (cbn_cons (cbn_singleton_tag "text" "\n</thinking>" (by decide)) cbn_nil))
        (cbn_antEventsOf antChunks))
        (cbn_cons (cbn_not_content (fun bs hc => by simp at hc)) cbn_nil)
  · intro c hc
    obtain ⟨choices, usage⟩ := c
    cases choices with
    | nil => simp at hc
    | cons choice rest =>
      obtain ⟨⟨content⟩⟩ := choice
      cases content with
      | none => simp at hc
      | some s =>
        simp at hc
        subst hc
        simp [dsStep]
        decide
  · intro c hc
    obtain ⟨choices, usage⟩ := c
    cases choices with
    | nil => simp at hc
    | cons choice rest =>
      obtain ⟨⟨content⟩⟩ := choice
      cases content with
      | none => simp at hc
      | some s =>
        simp at hc
        subst hc
        simp [antStep]
        decide

/-- Witness instantiating C9 at a concrete session and content event. -/
theorem c9_nonempty_content_blocks_witness :
    (ContentBlock.mk "text" "<thinking>\n").text ≠ "" :=
  (c9_nonempty_content_blocks cfg0 0 none [] (fun _ => []) (fun _ _ => [])).1
    (StreamEvent.content [ContentBlock.mk "text" "<thinking>\n"]) (by decide)
    [ContentBlock.mk "text" "<thinking>\n"] rfl
    (ContentBlock.mk "text" "<thinking>\n") (List.mem_singleton.mpr rfl)

/-- Batched handler behaviour when DeepSeek yields no content: the
missing_content DeepSeek error, with Anthropic never called. -/
theorem chat_calls_none (config : Config) (created : Nat) (verbose : Bool)
    (sp : Option String) (messages : List Message)
    (dsChat : List Message → DsResponse)
    (antChat : List Message → Option String → AntResponse)
    (h : firstContentDs (dsChat messages) = none) :
    chat config created verbose sp messages dsChat antChat =
      (Except.error (ApiError.DeepSeekError "No reasoning content in response"
        "missing_content" none none),
       [BackendCall.deepseek messages]) := by
  simp only [chat, h]

/-- Batched handler trace when DeepSeek yields content: both backends
are called, Anthropic with the conversation extended by the wrapped
reasoning, regardless of Anthropic's answer. -/
theorem chat_calls_some (config : Config) (created : Nat) (verbose : Bool)
    (sp : Option String) (messages : List Message)
    (dsChat : List Message → DsResponse)
    (antChat : List Message → Option String → AntResponse) (r : String)
    (h : firstContentDs (dsChat messages) = some r) :
    (chat config created verbose sp messages dsChat antChat).2 =
      [BackendCall.deepseek messages,
       BackendCall.anthropic (messages ++
         [Message.mk Role.assistant (wrapThinking r)]) sp] := by
  simp only [chat, h]
  cases firstContentAnt (antChat (messages ++
    [Message.mk Role.assistant (wrapThinking r)]) sp) <;> rfl

/-- Claim C6: whenever backend B is invoked, in either mode, the
conversation it receives equals the conversation backend A received
extended by exactly one assistant message holding backend A's complete
output wrapped in the fixed thinking delimiter, and the trace is
backend A followed by backend B; in streaming mode backend B is reached
only after the DeepSeek stream was exhausted without an error element. -/
theorem c6_conversation_extension (config : Config) (created : Nat)
    (verbose : Bool) (sp : Option String) (messages : List Message)
    (dsChat : List Message → DsResponse)
    (antChat : List Message → Option String → AntResponse)
    (dsStr : List Message → List (Except String DsStreamChunk))
    (antStr : List Message → Option String → List (Except String AntStreamChunk)) :
    (∀ amsgs s, BackendCall.anthropic amsgs s ∈
        (chat config created verbose sp messages dsChat antChat).2 →
      ∃ r, firstContentDs (dsChat messages) = some r ∧
        amsgs = messages ++ [Message.mk Role.assistant (wrapThinking r)] ∧
        (chat config created verbose sp messages dsChat antChat).2 =
          [BackendCall.deepseek messages, BackendCall.anthropic amsgs s]) ∧
    (∀ amsgs s, BackendCall.anthropic amsgs s ∈
        (chat_stream config created sp messages dsStr antStr).2 →
      ∃ dsChunks, dsStr messages = dsChunks.map Except.ok ∧
        amsgs = messages ++
          [Message.mk Role.assistant (wrapThinking (dsTextOf dsChunks))] ∧
        (chat_stream config created sp messages dsStr antStr).2 =
          [BackendCall.deepseek messages, BackendCall.anthropic amsgs s]) := by
  constructor
  · intro amsgs s hmem
    cases hds : firstContentDs (dsChat messages) with
    | none =>
        have h2 : (chat config created verbose sp messages dsChat antChat).2 =
            [BackendCall.deepseek messages] := by
          rw [chat_calls_none config created verbose sp messages dsChat antChat hds]
        rw [h2, List.mem_singleton] at hmem
        simp at hmem
    | some r =>
        have hc := chat_calls_some config created verbose sp messages dsChat
          antChat r hds
        rw [hc] at hmem
        rcases List.mem_cons.mp hmem with h1 | h2
        · simp at h1
        · rw [List.mem_singleton] at h2
          injection h2 with ha hs
          subst ha
          subst hs
          exact ⟨r, rfl, rfl, hc⟩
  · intro amsgs s hmem
    rcases except_decomp (dsStr messages) with ⟨dsChunks, hds⟩ |
      ⟨dsChunks, e, rest, hds⟩
    · have hc := chat_stream_calls_ok config created sp messages dsStr antStr
        dsChunks hds
      rw [hc] at hmem
      rcases List.mem_cons.mp hmem with h1 | h2
      · simp at h1
      · rw [List.mem_singleton] at h2
        injection h2 with ha hs
        subst ha
        subst hs
        exact ⟨dsChunks, hds, rfl, hc⟩
    · have hc : (chat_stream config created sp messages dsStr antStr).2 =
          [BackendCall.deepseek messages] := by
        rw [chat_stream_ds_err config created sp messages dsStr antStr dsChunks
          e rest hds]
      rw [hc, List.mem_singleton] at hmem
      simp at hmem

/-- Witness instantiating the batched part of C6 at concrete backends. -/
theorem c6_conversation_extension_witness :
    ∃ r, firstContentDs (dsChatEx []) = some r ∧
      [Message.mk Role.assistant (wrapThinking "draft")] =
        [] ++ [Message.mk Role.assistant (wrapThinking r)] ∧
      (chat cfg0 0 false none [] dsChatEx antChatEx).2 =
        [BackendCall.deepseek [],
         BackendCall.anthropic
           [Message.mk Role.assistant (wrapThinking "draft")] none] :=
  (c6_conversation_extension cfg0 0 false none [] dsChatEx antChatEx
    (fun _ => []) (fun _ _ => [])).1
    [Message.mk Role.assistant (wrapThinking "draft")] none (by decide)

/-- Claim C3: for identical deterministic backend outputs (the batched
backends return exactly the text that the stream chunks accumulate), the
emission-order concatenation of all content event block texts of the
streaming session equals the concatenation of the two content blocks
(wrapped thinking block then answer block) of the batched response. -/
theorem c3_stream_batch_text_equiv (config : Config) (created : Nat)
    (verbose : Bool) (sp : Option String) (messages : List Message)
    (dsChunks : List DsStreamChunk) (antChunks : List AntStreamChunk)
    (dsChat : List Message → DsResponse)
    (antChat : List Message → Option String → AntResponse)
    (hds : firstContentDs (dsChat messages) = some (dsTextOf dsChunks))
    (hant : ∀ ms s, firstContentAnt (antChat ms s) = some (antTextOf antChunks)) :
    ∃ resp calls,
      chat config created verbose sp messages dsChat antChat =
        (Except.ok resp, calls) ∧
      eventsText (chat_stream config created sp messages
        (fun _ => dsChunks.map Except.ok)
        (fun _ _ => antChunks.map Except.ok)).1 = responseText resp := by
  simp only [chat, hds, hant]
  refine ⟨_, _, rfl, ?_⟩
  rw [chat_stream_ok_ok config created sp messages _ _ dsChunks antChunks
    rfl rfl]
  simp only [List.append_eq, List.nil_append, List.cons_append, List.map_append,
    List.map_cons, List.map_nil, eventsText_append, eventsText_dsEventsOf,
    eventsText_antEventsOf, eventsText_usageTail, responseText, eventsText,
    eventText, concatTexts, concatTexts_append, wrapThinking,
    String.append_empty, String.empty_append, String.append_assoc]
  rw [show concatTexts (List.map eventText (dsEventsOf dsChunks)) =
      dsTextOf dsChunks from eventsText_dsEventsOf dsChunks,
    show concatTexts (List.map eventText (antEventsOf antChunks)) =
      antTextOf antChunks from eventsText_antEventsOf antChunks,
    show concatTexts (List.map eventText (usageTail config
        (dsLastUsage dsChunks none) (antMaxToks antChunks (0, 0)))) = ""
      from eventsText_usageTail config (dsLastUsage dsChunks none)
        (antMaxToks antChunks (0, 0)),
    String.append_empty]

/-- Concrete DeepSeek stream chunks carrying one delta used in the C3
witness. -/
def dsDeltaEx : List DsStreamChunk := [⟨[⟨⟨some "draft"⟩⟩], none⟩]

/-- Concrete Anthropic stream chunks carrying one delta used in the C3
witness. -/
def antDeltaEx : List AntStreamChunk := [⟨[⟨⟨some "final answer"⟩⟩], none⟩]

/-- Witness instantiating C3 at concrete deterministic backends. -/
theorem c3_stream_batch_text_equiv_witness :
    ∃ resp calls,
      chat cfg0 0 false none [] dsChatEx antChatEx = (Except.ok resp, calls) ∧
      eventsText (chat_stream cfg0 0 none []
        (fun _ => dsDeltaEx.map Except.ok)
        (fun _ _ => antDeltaEx.map Except.ok)).1 = responseText resp :=
  c3_stream_batch_text_equiv cfg0 0 false none [] dsDeltaEx antDeltaEx
    dsChatEx antChatEx rfl (fun _ _ => rfl)

/-- The DeepSeek loop events contain no usage event. -/
theorem filter_isUsage_dsEventsOf (chunks : List DsStreamChunk) :
    (dsEventsOf chunks).filter isUsageEvent = [] :=
  filter_eq_nil_of_false _ (fun e he => (dsEventsOf_flags chunks e he).2.2.2)

/-- The Anthropic loop events contain no usage event. -/
theorem filter_isUsage_antEventsOf (chunks : List AntStreamChunk) :
    (antEventsOf chunks).filter isUsageEvent = [] :=
  filter_eq_nil_of_false _ (fun e he => (antEventsOf_flags chunks e he).2.2.2)

/-- Counterexample to C1 as stated: a streaming session whose DeepSeek
stream yields no content at all still invokes the Anthropic backend,
with an empty thinking block, and completes with done and no error. -/
theorem c1_counterexample :
    (chat_stream cfg0 0 none [] (fun _ => []) (fun _ _ => [])).2 =
      [BackendCall.deepseek [],
       BackendCall.anthropic
         [Message.mk Role.assistant "<thinking>\n\n</thinking>"] none] ∧
    (chat_stream cfg0 0 none [] (fun _ => []) (fun _ _ => [])).1 =
      [StreamEvent.start 0,
       StreamEvent.content [ContentBlock.mk "text" "<thinking>\n"],
       StreamEvent.content [ContentBlock.mk "text" "\n</thinking>"],
       StreamEvent.done] := by
  constructor <;> decide

/-- Claim C1 amended: in batched mode, if backend A's response contains
no content the session fails with the DeepSeek missing_content error and
backend B is never invoked; the streaming mode performs no such check
and invokes backend B even when backend A's exhausted stream produced
zero content. -/
theorem c1_missing_content_gate (config : Config) (created : Nat)
    (verbose : Bool) (sp : Option String) (messages : List Message)
    (dsChat : List Message → DsResponse)
    (antChat : List Message → Option String → AntResponse)
    (dsChunks : List DsStreamChunk)
    (antStr : List Message → Option String → List (Except String AntStreamChunk))
    (hb : firstContentDs (dsChat messages) = none)
    (hs : dsTextOf dsChunks = "") :
    chat config created verbose sp messages dsChat antChat =
      (Except.error (ApiError.DeepSeekError "No reasoning content in response"
        "missing_content" none none),
       [BackendCall.deepseek messages]) ∧
    (chat_stream config created sp messages (fun _ => dsChunks.map Except.ok)
        antStr).2 =
      [BackendCall.deepseek messages,
       BackendCall.anthropic (messages ++
         [Message.mk Role.assistant (wrapThinking "")]) sp] := by
  constructor
  · exact chat_calls_none config created verbose sp messages dsChat antChat hb
  · have hc := chat_stream_calls_ok config created sp messages
      (fun _ => dsChunks.map Except.ok) antStr dsChunks rfl
    rw [hs] at hc
    exact hc

/-- Witness instantiating the amended C1 at concrete backends. -/
theorem c1_missing_content_gate_witness :
    chat cfg0 0 false none [] (fun _ => ⟨[], ⟨0, 0, 0⟩⟩) antChatEx =
      (Except.error (ApiError.DeepSeekError "No reasoning content in response"
        "missing_content" none none),
       [BackendCall.deepseek []]) ∧
    (chat_stream cfg0 0 none []
        (fun _ => ([] : List DsStreamChunk).map Except.ok) (fun _ _ => [])).2 =
      [BackendCall.deepseek [],
       BackendCall.anthropic ([] ++
         [Message.mk Role.assistant (wrapThinking "")]) none] :=
  c1_missing_content_gate cfg0 0 false none [] (fun _ => ⟨[], ⟨0, 0, 0⟩⟩)
    antChatEx [] (fun _ _ => []) rfl rfl

/-- Counterexample to C2 as stated: DeepSeek stream snapshots (100,50)
then (90,40) are finally reported as (90,40) - the last snapshot - even
though their field-wise maximum is (100,50). -/
theorem c2_counterexample :
    (usageEvents (chat_stream cfg0 0 none []
        (fun _ => [Except.ok ⟨[], some ⟨100, 50, 150⟩⟩,
                   Except.ok ⟨[], some ⟨90, 40, 130⟩⟩])
        (fun _ _ => [])).1).map
      (fun cu => (cu.deepseek_usage.input_tokens,
        cu.deepseek_usage.output_tokens)) = [(90, 40)] ∧
    (Nat.max 100 90, Nat.max 50 40) = (100, 50) ∧
    ((90, 40) : Nat × Nat) ≠ (100, 50) := by
  refine ⟨?_, by decide, by decide⟩
  have hm := chat_stream_ok_ok cfg0 0 none []
    (fun _ => [Except.ok ⟨[], some ⟨100, 50, 150⟩⟩,
               Except.ok ⟨[], some ⟨90, 40, 130⟩⟩])
    (fun _ _ => [])
    [⟨[], some ⟨100, 50, 150⟩⟩, ⟨[], some ⟨90, 40, 130⟩⟩] [] rfl rfl
  rw [hm]
  simp only [List.cons_append, List.nil_append, usageEvents_cons_start,
    usageEvents_cons_content, usageEvents_append, usageEvents_dsEventsOf,
    usageEvents_antEventsOf, usageEvents_cons_done, usageEvents_nil,
    List.append_nil]
  rw [show dsLastUsage [⟨[], some ⟨100, 50, 150⟩⟩, ⟨[], some ⟨90, 40, 130⟩⟩]
      none = some ⟨90, 40, 130⟩ from rfl]
  rw [usageEvents_usageTail_some]
  rfl

/-- Claim C2 amended: for backend B (Anthropic) the finally reported
usage of a streaming session is the field-wise running maximum of all
snapshots observed (the (100,50),(100,80),(90,80) example yields
(100,80)); for backend A (DeepSeek) the finally reported usage is the
last snapshot observed, not the field-wise maximum. -/
theorem c2_usage_watermark (config : Config) (created : Nat)
    (sp : Option String) (messages : List Message)
    (dsChunks : List DsStreamChunk) (antChunks : List AntStreamChunk)
    (u : DsUsage) (hu : dsLastUsage dsChunks none = some u) :
    (∀ cu ∈ usageEvents (chat_stream config created sp messages
        (fun _ => dsChunks.map Except.ok)
        (fun _ _ => antChunks.map Except.ok)).1,
      cu.anthropic_usage.input_tokens = (antMaxToks antChunks (0, 0)).1 ∧
      cu.anthropic_usage.output_tokens = (antMaxToks antChunks (0, 0)).2 ∧
      cu.deepseek_usage.input_tokens = u.prompt_tokens ∧
      cu.deepseek_usage.output_tokens = u.completion_tokens) ∧
    antMaxToks [⟨[], some ⟨100, 50, 150⟩⟩, ⟨[], some ⟨100, 80, 180⟩⟩,
      ⟨[], some ⟨90, 80, 170⟩⟩] (0, 0) = (100, 80) := by
  constructor
  · intro cu hcu
    rw [chat_stream_ok_ok config created sp messages _ _ dsChunks antChunks
      rfl rfl] at hcu
    simp only [List.cons_append, List.nil_append, usageEvents_cons_start,
      usageEvents_cons_content, usageEvents_append, usageEvents_dsEventsOf,
      usageEvents_antEventsOf, usageEvents_cons_done, usageEvents_nil,
      List.append_nil] at hcu
    rcases mem_usageTail_payload config (dsLastUsage dsChunks none)
      (antMaxToks antChunks (0, 0)) cu hcu with ⟨h1, h2, h3, v, hv, h4, h5⟩
    rw [hu] at hv
    injection hv with hv
    subst hv
    exact ⟨h1, h2, h4, h5⟩
  · decide

/-- Witness instantiating the amended C2, including the snapshot
example. -/
theorem c2_usage_watermark_witness :
    antMaxToks [⟨[], some ⟨100, 50, 150⟩⟩, ⟨[], some ⟨100, 80, 180⟩⟩,
      ⟨[], some ⟨90, 80, 170⟩⟩] (0, 0) = (100, 80) :=
  (c2_usage_watermark cfg0 0 none [] [⟨[], some ⟨1, 1, 2⟩⟩] []
    ⟨1, 1, 2⟩ rfl).2

/-- Concrete batched Anthropic backend returning no content, used in
witnesses. -/
def antChatNoneEx : List Message → Option String → AntResponse :=
  fun _ _ => ⟨[], ⟨0, 0, none, none, 0⟩⟩

/-- Counterexample to C4 as stated: a streaming session in which backend
B yields no content at all still completes with done and emits no error
event, instead of delivering a terminal MissingContent error event. -/
theorem c4_counterexample :
    ((chat_stream cfg0 0 none []
        (fun _ => [Except.ok ⟨[⟨⟨some "draft"⟩⟩], none⟩])
        (fun _ _ => [])).1.filter isError = []) ∧
    (chat_stream cfg0 0 none []
        (fun _ => [Except.ok ⟨[⟨⟨some "draft"⟩⟩], none⟩])
        (fun _ _ => [])).1.getLast? = some StreamEvent.done := by
  constructor <;> decide

/-- Claim C4 amended: in batched mode, if backend B yields no content
the session fails with the Anthropic missing_content error, a variant
distinct from backend A's DeepSeek error variant; the streaming mode
performs no such check: a session whose exhausted backend-B stream
produced no content terminates with done and contains no error event. -/
theorem c4_missing_anthropic_content (config : Config) (created : Nat)
    (verbose : Bool) (sp : Option String) (messages : List Message)
    (dsChat : List Message → DsResponse)
    (antChat : List Message → Option String → AntResponse)
    (r : String) (dsChunks : List DsStreamChunk)
    (antChunks : List AntStreamChunk)
    (hr : firstContentDs (dsChat messages) = some r)
    (ha : ∀ ms s, firstContentAnt (antChat ms s) = none)
    (hempty : antTextOf antChunks = "") :
    (chat config created verbose sp messages dsChat antChat).1 =
      Except.error (ApiError.AnthropicError "No content in Anthropic response"
        "missing_content" none none) ∧
    (∀ m t p c, ApiError.AnthropicError m t p c ≠ ApiError.DeepSeekError m t p c) ∧
    ((chat_stream config created sp messages (fun _ => dsChunks.map Except.ok)
        (fun _ _ => antChunks.map Except.ok)).1.filter isError = []) ∧
    (chat_stream config created sp messages (fun _ => dsChunks.map Except.ok)
        (fun _ _ => antChunks.map Except.ok)).1.getLast? =
      some StreamEvent.done := by
  refine ⟨?_, ?_, ?_, ?_⟩
  · simp only [chat, hr, ha]
  · intro m t p c h
    simp at h
  · rw [chat_stream_ok_ok config created sp messages _ _ dsChunks antChunks
      rfl rfl]
    simp [List.filter_append, filter_isError_dsEventsOf,
      filter_isError_antEventsOf, filter_isError_usageTail, isError]
  · rw [chat_stream_ok_ok config created sp messages _ _ dsChunks antChunks
      rfl rfl]
    exact getLast?_append_last _ _

/-- Witness instantiating the amended C4 at concrete backends. -/
theorem c4_missing_anthropic_content_witness :
    (chat cfg0 0 false none [] dsChatEx antChatNoneEx).1 =
      Except.error (ApiError.AnthropicError "No content in Anthropic response"
        "missing_content" none none) :=
  (c4_missing_anthropic_content cfg0 0 false none [] dsChatEx antChatNoneEx
    "draft" dsDeltaEx [] rfl (fun _ _ => rfl) rfl).1

/-- Counterexample to C8 as stated: a streaming session that completes
successfully - done is the final event and no error occurs - but in
which backend A reported no usage snapshot emits no usage event at all. -/
theorem c8_counterexample :
    (chat_stream cfg0 0 none []
        (fun _ => [Except.ok ⟨[⟨⟨some "hello"⟩⟩], none⟩])
        (fun _ _ => [])).1 =
      [StreamEvent.start 0,
       StreamEvent.content [ContentBlock.mk "text" "<thinking>\n"],
       StreamEvent.content [ContentBlock.mk "text_delta" "hello"],
       StreamEvent.content [ContentBlock.mk "text" "\n</thinking>"],
       StreamEvent.done] ∧
    usageEvents (chat_stream cfg0 0 none []
        (fun _ => [Except.ok ⟨[⟨⟨some "hello"⟩⟩], none⟩])
        (fun _ _ => [])).1 = [] := by
  constructor <;> decide

/-- Claim C8 amended: in every streaming session in which both backend
streams are exhausted without error and backend A reported at least one
usage snapshot, a usage event carrying the combined usage is emitted
exactly once, after all backend content events and immediately before
the final done event. -/
theorem c8_usage_event_once (config : Config) (created : Nat)
    (sp : Option String) (messages : List Message)
    (dsChunks : List DsStreamChunk) (antChunks : List AntStreamChunk)
    (u : DsUsage) (hu : dsLastUsage dsChunks none = some u) :
    ∃ pre cu,
      (chat_stream config created sp messages (fun _ => dsChunks.map Except.ok)
        (fun _ _ => antChunks.map Except.ok)).1 =
        pre ++ [StreamEvent.usage cu, StreamEvent.done] ∧
      pre.filter isUsageEvent = [] := by
  rw [chat_stream_ok_ok config created sp messages _ _ dsChunks antChunks
    rfl rfl, hu]
  refine ⟨[StreamEvent.start created,
      StreamEvent.content [ContentBlock.mk "text" "<thinking>\n"]]
      ++ dsEventsOf dsChunks
      ++ [StreamEvent.content [ContentBlock.mk "text" "\n</thinking>"]]
      ++ antEventsOf antChunks,
    ⟨format_cost (calculate_deepseek_cost u.prompt_tokens u.completion_tokens
        config + calculate_anthropic_cost (antMaxToks antChunks (0, 0)).1
        (antMaxToks antChunks (0, 0)).2 config),
      ⟨u.prompt_tokens, u.completion_tokens, u.total_tokens,
        format_cost (calculate_deepseek_cost u.prompt_tokens
          u.completion_tokens config)⟩,
      ⟨(antMaxToks antChunks (0, 0)).1, (antMaxToks antChunks (0, 0)).2,
        (antMaxToks antChunks (0, 0)).1 + (antMaxToks antChunks (0, 0)).2,
        format_cost (calculate_anthropic_cost (antMaxToks antChunks (0, 0)).1
          (antMaxToks antChunks (0, 0)).2 config)⟩⟩, ?_, ?_⟩
  · simp [usageTail, List.append_assoc]
  · simp [List.filter_append, filter_isUsage_dsEventsOf,
      filter_isUsage_antEventsOf, isUsageEvent]

/-- Witness instantiating the amended C8 at a concrete session. -/
theorem c8_usage_event_once_witness :
    ∃ pre cu,
      (chat_stream cfg0 0 none []
        (fun _ => ([⟨[], some ⟨1, 1, 2⟩⟩] : List DsStreamChunk).map Except.ok)
        (fun _ _ => ([] : List AntStreamChunk).map Except.ok)).1 =
        pre ++ [StreamEvent.usage cu, StreamEvent.done] ∧
      pre.filter isUsageEvent = [] :=
  c8_usage_event_once cfg0 0 none [] [⟨[], some ⟨1, 1, 2⟩⟩] [] ⟨1, 1, 2⟩ rfl
